import Mathlib

/-!
Verification of the ttstream transport core (kitex streamx provider).

This file gives a shallow embedding of the pieces of the repository that the
claims C1..C10 are about:

* the concurrent FIFO pipe of package container (src/unnamed/part_001);
* the per-connection transport engine, transport.go: writeFrame, Close,
  Available, newStream, readStream, streamRecv, and the server branch of the
  Header frame handler of loopRead;
* the per-stream half-close accounting of streamIO
  (connection_buffer.go: runCloseCallback, closeSend, closeRecv, close, cancel).

Go machine integers are modelled as Int with explicit two-complement wrap
where overflow matters (atomic.AddInt32).  Go channel and map operations get
explicit outcome types: a send on a closed channel and closing a closed
channel are modelled by a panicked outcome, a read on an empty open pipe by a
blocked outcome.  External collaborators (payload codec, method directory)
are parameters of the definitions that call them.
-/

namespace TTStream

/-- Errors surfaced by the modelled operations.  eof models io.EOF (which the
container package aliases as PipeEOF / ErrPipeEOF), wrongKind the
"transport already be used as other kind" error of newStream and readStream,
streamIdExhausted the error the spec promises for stream id overflow (the
source never produces it), and codec an external payload codec failure. -/
inductive Err where
  | eof
  | wrongKind
  | streamIdExhausted
  | codec (code : Nat)
deriving DecidableEq

/-- State of container.Pipe (src/unnamed/part_001): a queue of items and a
closed flag.  Queue modelled from the spec: the container.Queue type used by
the pipe is not under src/; per spec section 3 and 4.B the pipe is an
unbounded FIFO, so Queue.Add appends at the back and Queue.Get pops the
front. -/
structure Pipe (α : Type) where
  queue : List α
  closed : Bool
deriving DecidableEq

/-- The freshly constructed pipe of NewPipe: empty queue, not closed. -/
def Pipe.empty {α : Type} : Pipe α := ⟨[], false⟩

/-- part_001 Pipe.Write: appends every item to the FIFO queue and signals one
waiter.  The source has no failure path: there is no error return and the
closed flag is not consulted, so items are appended even on a closed pipe. -/
def Pipe.Write {α : Type} (p : Pipe α) (items : List α) : Pipe α :=
  { p with queue := p.queue ++ items }

/-- part_001 Pipe.Close: sets the closed flag and signals; idempotent. -/
def Pipe.Close {α : Type} (p : Pipe α) : Pipe α :=
  { p with closed := true }

/-- Outcome of one Pipe.Read call by the single reader: ok returns the items
obtained (at least one) and the remaining pipe, eof models the (0, PipeEOF)
return on a drained closed pipe, and blocked models parking on the condition
variable of an empty open pipe (no result until a writer acts). -/
inductive ReadResult (α : Type) where
  | ok (items : List α) (rest : Pipe α)
  | eof
  | blocked
deriving DecidableEq

/-- part_001 Pipe.Read with a buffer of length bufLen, for the single reader
with no concurrent writer inside the call.  The read loop pops up to bufLen
items off the front of the queue and returns them as soon as it got at least
one; with an empty queue it checks empty before closed, returning PipeEOF
only when the pipe is closed, and otherwise waits.  A zero length buffer on a
nonempty queue makes the Go code spin without returning, modelled as
blocked. -/
def Pipe.Read {α : Type} (p : Pipe α) (bufLen : Nat) : ReadResult α :=
  match p.queue with
  | [] => if p.closed then .eof else .blocked
  | x :: xs =>
      if bufLen = 0 then .blocked
      else .ok ((x :: xs).take bufLen) ⟨(x :: xs).drop bufLen, p.closed⟩

/-- Iterated Pipe.Read until the pipe reports EOF, blocks, or fuel runs out.
Returns the concatenation of all chunks read, and true exactly when the last
read returned (0, PipeEOF). -/
def drainLoop {α : Type} : Nat → Pipe α → Nat → List α × Bool
  | 0, _, _ => ([], false)
  | fuel + 1, p, bufLen =>
      match p.Read bufLen with
      | .ok items rest =>
          let r := drainLoop fuel rest bufLen
          (items ++ r.1, r.2)
      | .eof => ([], true)
      | .blocked => ([], false)

/-- Frame types of the wire protocol (frame.go constants referenced by
transport.go): Meta=0, Header=1, Data=2, Trailer=3. -/
inductive FrameType where
  | meta
  | header
  | data
  | trailer
deriving DecidableEq

/-- Streaming modes of the method directory (serviceinfo.StreamingMode). -/
inductive StreamingMode where
  | unary
  | clientSide
  | serverSide
  | bidirectional
deriving DecidableEq

/-- The streamFrame metadata embedded in every frame (sid, method, header and
trailer maps).  Maps are ordered association lists. -/
structure StreamFrameMeta where
  sid : Int
  method : String
  header : List (String × String)
  trailer : List (String × String)
deriving DecidableEq

/-- A wire frame as built by newFrame(meta, ftype, payload): the streamFrame
metadata, the frame type and the opaque payload bytes. -/
structure Frame where
  meta : StreamFrameMeta
  ftype : FrameType
  payload : List Nat
deriving DecidableEq

/-- The per-stream record the transport creates via newStream (stream.go is
not under src/; the fields sid, method and mode follow spec section 3). -/
structure Stream where
  sid : Int
  method : String
  mode : StreamingMode
deriving DecidableEq

/-- A buffered Go channel: buffer contents, capacity, closed flag. -/
structure GoChan (α : Type) where
  buf : List α
  cap : Nat
  closed : Bool
deriving DecidableEq

/-- Outcome of a Go channel send.  Sending on a closed channel panics; a send
on a full open channel blocks until a receiver frees capacity (the modelled
call does not complete by itself). -/
inductive SendResult (α : Type) where
  | ok (c : GoChan α)
  | blocked
  | panicked
deriving DecidableEq

/-- Go semantics of ch <- x for a buffered channel. -/
def GoChan.send {α : Type} (c : GoChan α) (x : α) : SendResult α :=
  if c.closed then .panicked
  else if c.buf.length < c.cap then .ok { c with buf := c.buf ++ [x] }
  else .blocked

/-- Outcome of the Go builtin close(ch): closing a closed channel panics. -/
inductive CloseChanResult (α : Type) where
  | ok (c : GoChan α)
  | panicked
deriving DecidableEq

/-- Go semantics of close(ch). -/
def GoChan.closeChan {α : Type} (c : GoChan α) : CloseChanResult α :=
  if c.closed then .panicked else .ok { c with closed := true }

/-- A streamIOMsg (connection_buffer.go): payload bytes or an exception. -/
structure Msg where
  payload : List Nat
  exception : Option Err
deriving DecidableEq

/-- The receive-side state of a streamIO (connection_buffer.go): the latched
exception and the pipe of incoming messages.  The half-close counters live in
CbState below. -/
structure SioState where
  exception : Option Err
  pipe : Pipe Msg
deriving DecidableEq

/-- Outcome of streamIO.output: a message, an error, or blocking on the
pipe. -/
inductive OutputResult where
  | ok (m : Msg) (s : SioState)
  | err (e : Err) (s : SioState)
  | blocked
deriving DecidableEq

/-- streamIO.output (connection_buffer.go): return the latched exception if
set; otherwise read one message from the pipe into the one-slot cache.  A
pipe EOF (ErrPipeEOF, mapped to io.EOF) or a zero-length read latches EOF; a
message carrying an exception latches that exception; otherwise the message
is returned. -/
def sioOutput (s : SioState) : OutputResult :=
  match s.exception with
  | some e => .err e s
  | none =>
      match s.pipe.Read 1 with
      | .eof => .err Err.eof { s with exception := some Err.eof }
      | .blocked => .blocked
      | .ok items rest =>
          match items with
          | [] => .err Err.eof { s with pipe := rest, exception := some Err.eof }
          | m :: _ =>
              match m.exception with
              | some e => .err e { s with pipe := rest, exception := some e }
              | none => .ok m { s with pipe := rest }

/-- The transport of transport.go restricted to the state the claims touch:
kind (clientTransport=1, serverTransport=2), the streams registry
(sync.Map sid to streamIO, as an association list), the server accept cache
scache and accept pipe spipe, the bounded write channel wchannel
(capacity frameChanSize=32), the connection closed flag and the atomic
lastActive cell (nil until the read loop stores a time). -/
structure Transport where
  kind : Int
  streams : List (Int × SioState)
  scache : List Stream
  spipe : Pipe Stream
  wchannel : GoChan Frame
  connClosed : Bool
  lastActive : Option Int
deriving DecidableEq

/-- transport.go constant clientTransport. -/
def clientTransport : Int := 1

/-- transport.go constant serverTransport. -/
def serverTransport : Int := 2

/-- transport.go constant streamCacheSize, also frameChanSize. -/
def streamCacheSize : Nat := 32

/-- t.loadStreamIO(sid): lookup in the streams registry. -/
def Transport.loadSio (t : Transport) (sid : Int) : Option SioState :=
  t.streams.lookup sid

/-- Store an updated streamIO back under its sid (the Go code mutates the
shared streamIO in place). -/
def Transport.storeSio (t : Transport) (sid : Int) (s : SioState) : Transport :=
  { t with streams := t.streams.map (fun p => if p.1 = sid then (sid, s) else p) }

/-- Outcome of transport.writeFrame.  The closedErr constructor expresses the
behaviour the spec promises for a closed write channel; no branch of the
source produces it, which is exactly what claim C3 is about. -/
inductive WriteFrameOutcome where
  | ok (t : Transport)
  | encodeErr (e : Err)
  | blocked
  | panicked
  | closedErr
deriving DecidableEq

/-- transport.writeFrame: if data is non-nil, encode it through the external
payload codec (EncodePayload), returning the codec error on failure; then
build the frame and send it on wchannel with a plain Go channel send
(t.wchannel <- frame).  The send is unguarded: on a closed channel it panics,
on a full channel it blocks. -/
def Transport.writeFrame (t : Transport) (meta : StreamFrameMeta)
    (ftype : FrameType) (data : Option (List Nat))
    (enc : List Nat → Except Err (List Nat)) : WriteFrameOutcome :=
  match data with
  | some d =>
      match enc d with
      | .error e => .encodeErr e
      | .ok payload =>
          match t.wchannel.send ⟨meta, ftype, payload⟩ with
          | .ok c => .ok { t with wchannel := c }
          | .blocked => .blocked
          | .panicked => .panicked
  | none =>
      match t.wchannel.send ⟨meta, ftype, []⟩ with
      | .ok c => .ok { t with wchannel := c }
      | .blocked => .blocked
      | .panicked => .panicked

/-- Outcome of transport.Close. -/
inductive TransCloseOutcome where
  | ok (t : Transport)
  | panicked
deriving DecidableEq

/-- transport.Close: t.spipe.Close() (sets the pipe closed flag, idempotent),
then close(t.wchannel) (a Go channel close, which panics if wchannel is
already closed), then t.conn.Close(). -/
def Transport.Close (t : Transport) : TransCloseOutcome :=
  let t1 := { t with spipe := t.spipe.Close }
  match t1.wchannel.closeChan with
  | .panicked => .panicked
  | .ok c => .ok { t1 with wchannel := c, connClosed := true }

/-- The 10 minute idle threshold of transport.Available, in nanoseconds of a
Go time.Duration (time.Minute * 10). -/
def idleThreshold : Int := 600000000000

/-- transport.Available: true when lastActive has never been stored,
otherwise true iff now minus lastActive is strictly below ten minutes.
Times are instants in nanoseconds. -/
def Transport.Available (t : Transport) (now : Int) : Bool :=
  match t.lastActive with
  | none => true
  | some lastActive => now - lastActive < idleThreshold

/-- Two-complement wrap of an integer into the signed 32 bit range, the value
semantics of Go int32 arithmetic (atomic.AddInt32 wraps silently). -/
def int32wrap (n : Int) : Int := (n + 2 ^ 31) % 2 ^ 32 - 2 ^ 31

/-- Outcome of transport.newStream. -/
inductive NewStreamOutcome where
  | ok (s : Stream) (t : Transport) (counter : Int)
  | err (e : Err)
  | panicked
  | blocked
deriving DecidableEq

/-- transport.newStream: reject a non-client transport; atomically increment
the process-wide int32 counter clientStreamID (wrapping, no overflow check)
to obtain sid; look the method up in the external directory
(t.sinfo.MethodInfo(method).StreamingMode(), modelled from the spec section
4.F: the lookup yields the streaming mode for known methods and nothing for
missing ones, and taking StreamingMode of a missing result is a nil
dereference, i.e. a panic); build the stream and send the Header frame via
writeFrame.  The new counter value is returned alongside (the Go code stores
it in the global). -/
def Transport.newStream (t : Transport) (counter : Int)
    (dir : String → Option StreamingMode) (method : String)
    (header : List (String × String)) : NewStreamOutcome :=
  if t.kind ≠ clientTransport then .err Err.wrongKind
  else
    let sid := int32wrap (counter + 1)
    match dir method with
    | none => .panicked
    | some smode =>
        let smeta : StreamFrameMeta := ⟨sid, method, header, []⟩
        let s : Stream := ⟨sid, method, smode⟩
        match t.writeFrame smeta FrameType.header none (fun d => Except.ok d) with
        | .ok t2 => .ok s t2 sid
        | .encodeErr e => .err e
        | .blocked => .blocked
        | .panicked => .panicked
        | .closedErr => .err Err.eof

/-- Outcome of transport.readStream.  The panicked constructor models the
panic("Assert: N == 0 !") branch. -/
inductive ReadStreamOutcome where
  | ok (s : Stream) (t : Transport)
  | err (e : Err)
  | blocked
  | panicked
deriving DecidableEq

/-- transport.readStream: reject a non-server transport; if the local cache
scache is nonempty, pop and return its last element; otherwise read a batch
of up to streamCacheSize streams from the accept pipe into scache and loop
(goto READ), which pops the last element of the freshly filled cache.  A
pipe EOF becomes io.EOF; a zero-length successful read panics. -/
def Transport.readStream (t : Transport) : ReadStreamOutcome :=
  if t.kind ≠ serverTransport then .err Err.wrongKind
  else
    match t.scache.getLast? with
    | some s => .ok s { t with scache := t.scache.dropLast }
    | none =>
        match t.spipe.Read streamCacheSize with
        | .eof => .err Err.eof
        | .blocked => .blocked
        | .ok items rest =>
            match items.getLast? with
            | none => .panicked
            | some s => .ok s { t with scache := items.dropLast, spipe := rest }

/-- n successive calls of transport.readStream by the single accept loop;
some (streams, finalState) when every call returned a stream. -/
def Transport.readStreamN : Nat → Transport → Option (List Stream × Transport)
  | 0, t => some ([], t)
  | n + 1, t =>
      match t.readStream with
      | .ok s t2 =>
          match Transport.readStreamN n t2 with
          | some (ss, t3) => some (s :: ss, t3)
          | none => none
      | _ => none

/-- Outcome of transport.streamRecv. -/
inductive RecvOutcome where
  | ok (t : Transport)
  | err (e : Err) (t : Transport)
  | blocked
deriving DecidableEq

/-- transport.streamRecv: an unknown sid returns io.EOF; an error from
sio.output() is returned; otherwise the payload is decoded through the
external codec (DecodePayload) into the target — the source assigns that
result to err, frees the payload buffer, recycles the frame and then
returns nil, so the decode result is dropped on the floor. -/
def Transport.streamRecv (t : Transport) (sid : Int)
    (decode : List Nat → Except Err Unit) : RecvOutcome :=
  match t.loadSio sid with
  | none => .err Err.eof t
  | some sio =>
      match sioOutput sio with
      | .blocked => .blocked
      | .err e sio2 => .err e (t.storeSio sid sio2)
      | .ok m sio2 =>
          let _ := decode m.payload
          .ok (t.storeSio sid sio2)

/-- Outcome of the server branch of the Header frame case in
transport.loopRead. -/
inductive HeaderOutcome where
  | panicked
  | accepted (t : Transport)
deriving DecidableEq

/-- The serverTransport case of the headerFrameType switch in
transport.loopRead (transport.go lines 125-130): look the method up via
t.sinfo.MethodInfo(fr.method).StreamingMode() — modelled from the spec
section 4.F, the directory yields nothing for a missing method and the
StreamingMode call on that nil result panics — then build the stream and
unconditionally enqueue it on the accept pipe t.spipe.  There is no branch
emitting a Trailer or otherwise rejecting the stream. -/
def serverHandleHeader (dir : String → Option StreamingMode) (t : Transport)
    (fr : Frame) : HeaderOutcome :=
  match dir fr.meta.method with
  | none => .panicked
  | some smode =>
      .accepted { t with spipe := t.spipe.Write [⟨fr.meta.sid, fr.meta.method, smode⟩] }

/-- The half-close accounting state of a streamIO (connection_buffer.go):
the atomic counter eofFlag (an int32, incremented with atomic.AddInt32), the
atomic latch callbackFlag (flipped with a compare-and-swap 0 to 1),
whether a close callback is registered (closeCallback non-nil), the flags of
the underlying pipe, and cbCount, a ghost counter of how many times the
registered callback has actually been invoked. -/
structure CbState where
  eofFlag : Int
  callbackFlag : Bool
  hasCallback : Bool
  pipeClosed : Bool
  pipeCancelled : Bool
  cbCount : Nat
deriving DecidableEq

/-- streamIO.runCloseCallback: invoke the callback only when one is
registered and the compare-and-swap of callbackFlag from 0 to 1 succeeds. -/
def CbState.runCloseCallback (s : CbState) : CbState :=
  if s.hasCallback && !s.callbackFlag then
    { s with callbackFlag := true, cbCount := s.cbCount + 1 }
  else s

/-- streamIO.closeSend: if a callback is registered (the Go condition
short-circuits, so eofFlag is only incremented in that case) and the
incremented eofFlag equals 2, run the close callback. -/
def CbState.closeSend (s : CbState) : CbState :=
  if s.hasCallback then
    if int32wrap (s.eofFlag + 1) = 2 then
      CbState.runCloseCallback { s with eofFlag := int32wrap (s.eofFlag + 1) }
    else { s with eofFlag := int32wrap (s.eofFlag + 1) }
  else s

/-- streamIO.closeRecv: close the pipe, then the same accounting as
closeSend. -/
def CbState.closeRecv (s : CbState) : CbState :=
  CbState.closeSend { s with pipeClosed := true }

/-- streamIO.close: close the pipe, close the stream, and run the close
callback unconditionally (the CAS inside still guards the invocation). -/
def CbState.close (s : CbState) : CbState :=
  CbState.runCloseCallback { s with pipeClosed := true }

/-- streamIO.cancel: cancel the pipe, close the stream, and run the close
callback unconditionally. -/
def CbState.cancel (s : CbState) : CbState :=
  CbState.runCloseCallback { s with pipeCancelled := true }

/-- One close path of a streamIO, as invoked by the transport or the
application. -/
inductive CloseOp where
  | closeSend
  | closeRecv
  | close
  | cancel
deriving DecidableEq

/-- Apply one close path. -/
def CbState.execOp (s : CbState) : CloseOp → CbState
  | .closeSend => s.closeSend
  | .closeRecv => s.closeRecv
  | .close => s.close
  | .cancel => s.cancel

/-- Apply a sequence of close paths in order.  Because every update of
callbackFlag and eofFlag in the source is a single atomic instruction and
the callback invocation is guarded solely by the callbackFlag CAS, any
concurrent interleaving of close paths acts on the accounting state as some
such sequence. -/
def CbState.execOps (s : CbState) : List CloseOp → CbState :=
  List.foldl CbState.execOp s

/-- A freshly registered streamIO: both atomics zero, callback never run. -/
def CbState.init (hasCb : Bool) : CbState :=
  ⟨0, false, hasCb, false, false, 0⟩

/-- Identity payload encoder: an external codec that always succeeds. -/
def encId : List Nat → Except Err (List Nat) := fun d => Except.ok d

/-- An external payload decoder that always fails. -/
def decodeFail : List Nat → Except Err Unit := fun _ => Except.error (Err.codec 1)

/-- A method directory with no methods. -/
def dirNone : String → Option StreamingMode := fun _ => none

/-- A method directory mapping every method to unary mode. -/
def dirUnary : String → Option StreamingMode := fun _ => some StreamingMode.unary

/-- A sample method name. -/
def methodM : String := "m"

/-- A sample stream frame metadata. -/
def sampleMeta : StreamFrameMeta := ⟨1, "m", [], []⟩

/-- A sample Header frame for the unregistered method nope. -/
def sampleFrameNope : Frame := ⟨⟨1, "nope", [], []⟩, FrameType.header, []⟩

/-- An empty open write channel of capacity frameChanSize = 32. -/
def openChan : GoChan Frame := ⟨[], 32, false⟩

/-- An empty closed write channel of capacity 32. -/
def closedChan : GoChan Frame := ⟨[], 32, true⟩

/-- A sample payload message with no exception. -/
def sampleMsg : Msg := ⟨[7], none⟩

/-- A streamIO whose pipe holds one payload message. -/
def sampleSio : SioState := ⟨none, ⟨[sampleMsg], false⟩⟩

/-- A fresh server transport. -/
def serverTrans : Transport := ⟨2, [], [], Pipe.empty, openChan, false, none⟩

/-- A fresh client transport. -/
def clientTrans : Transport := ⟨1, [], [], Pipe.empty, openChan, false, none⟩

/-- A client transport whose write channel has been closed. -/
def closedChanTrans : Transport := ⟨1, [], [], Pipe.empty, closedChan, false, none⟩

/-- A client transport with one registered streamIO under sid 5. -/
def recvTrans : Transport := ⟨1, [(5, sampleSio)], [], Pipe.empty, openChan, false, none⟩

/-- Three sample inbound streams. -/
def sampleStreamA : Stream := ⟨11, "a", StreamingMode.unary⟩

/-- Second sample inbound stream. -/
def sampleStreamB : Stream := ⟨12, "b", StreamingMode.serverSide⟩

/-- Third sample inbound stream. -/
def sampleStreamC : Stream := ⟨13, "c", StreamingMode.bidirectional⟩

/-- A server transport whose accept pipe holds three streams, in arrival
order A, B, C. -/
def acceptTrans : Transport :=
  ⟨2, [], [], ⟨[sampleStreamA, sampleStreamB, sampleStreamC], false⟩, openChan, false, none⟩

/-! ## Helper lemmas -/

theorem Pipe.Read_nonempty {α : Type} (p : Pipe α) (bufLen : Nat)
    (h : p.queue ≠ []) (hb : bufLen ≠ 0) :
    p.Read bufLen = .ok (p.queue.take bufLen) ⟨p.queue.drop bufLen, p.closed⟩ := by
  match hp : p.queue with
  | [] => exact absurd hp h
  | y :: ys => simp [Pipe.Read, hp, hb]

theorem drainLoop_closed {α : Type} (bufLen : Nat) (hk : 1 ≤ bufLen) :
    ∀ (fuel : Nat) (xs : List α), xs.length < fuel →
      drainLoop fuel ⟨xs, true⟩ bufLen = (xs, true) := by
  intro fuel
  induction fuel with
  | zero => intro xs h; omega
  | succ n ih =>
      intro xs h
      match xs with
      | [] => simp [drainLoop, Pipe.Read]
      | x :: rest =>
          have hb : bufLen ≠ 0 := by omega
          have hdrop : (x :: rest).length - bufLen < n := by
            simp only [List.length_cons] at h ⊢
            omega
          have := ih ((x :: rest).drop bufLen) (by simpa using hdrop)
          simp only [drainLoop, Pipe.Read, hb, if_false]
          simp [this, List.take_append_drop]

theorem writes_fold {α : Type} (xs : List α) :
    ∀ p : Pipe α, xs.foldl (fun q x => q.Write [x]) p = ⟨p.queue ++ xs, p.closed⟩ := by
  induction xs with
  | nil => intro p; simp
  | cons x rest ih =>
      intro p
      simp only [List.foldl_cons, ih]
      simp [Pipe.Write]

/-! ## C6: pipe delivers writes in order, then EOF -/

/-- Claim C6: for any finite sequence of Pipe writes of x1 .. xn followed by
close, the single reader obtains, over its successive Read calls, exactly
x1 .. xn in write order (as the concatenation of the returned chunks) and
then a final read returning EOF with count zero (the true flag of
drainLoop). -/
theorem C6_pipe_fifo_then_eof {α : Type} (xs : List α) (bufLen fuel : Nat)
    (hk : 1 ≤ bufLen) (hf : xs.length < fuel) :
    drainLoop fuel ((xs.foldl (fun q x => q.Write [x]) Pipe.empty).Close) bufLen
      = (xs, true) := by
  rw [writes_fold]
  simp only [Pipe.empty, List.nil_append, Pipe.Close]
  exact drainLoop_closed bufLen hk fuel xs hf

/-- Witness for C6 at xs = [1, 2, 3], buffer length 2, fuel 4. -/
theorem C6_witness :
    1 ≤ 2 ∧ ([1, 2, 3] : List Nat).length < 4 ∧
      drainLoop 4 ((([1, 2, 3] : List Nat).foldl (fun q x => q.Write [x]) Pipe.empty).Close) 2
        = ([1, 2, 3], true) :=
  ⟨by decide, by decide, C6_pipe_fifo_then_eof [1, 2, 3] 2 4 (by decide) (by decide)⟩

/-! ## C7: pipe write never fails and ignores the closed flag -/

/-- Claim C7 counterexample: writing to a closed pipe silently enqueues the
item (and Pipe.Write has no error result at all), contradicting the claim
that a write on a closed pipe fails with ErrClosed and does not enqueue. -/
theorem C7_counterexample :
    ((Pipe.empty : Pipe Nat).Close.Write [42]).queue = [42] ∧
      ((Pipe.empty : Pipe Nat).Close.Write [42]).closed = true := by
  decide

/-- Claim C7 amended: Pipe.Write is a non-blocking unconditional append with
no failure path: it returns no error, and it appends the items to the queue
and leaves the closed flag unchanged whether or not the pipe is closed. -/
theorem C7_write_always_appends {α : Type} (p : Pipe α) (xs : List α) :
    (p.Write xs).queue = p.queue ++ xs ∧ (p.Write xs).closed = p.closed :=
  ⟨rfl, rfl⟩

/-! ## C1: unknown method on a server Header frame -/

/-- Claim C1 (code bug): when the server reader loop receives a Header frame
whose method is missing from the method directory, the handler does not emit
a Trailer with an unknown-method status and does not drop the stream
gracefully: the unguarded StreamingMode call on the missing directory entry
panics, crashing the reader goroutine.  The model has no trailer-emitting or
rejecting outcome because the source has no such branch; for a known method
the stream is unconditionally enqueued on the accept pipe. -/
theorem C1_unknown_method_panics (dir : String → Option StreamingMode)
    (t : Transport) (fr : Frame) (h : dir fr.meta.method = none) :
    serverHandleHeader dir t fr = HeaderOutcome.panicked := by
  simp [serverHandleHeader, h]

/-- Witness for C1: the empty directory and a Header frame for method
nope. -/
theorem C1_witness :
    dirNone sampleFrameNope.meta.method = none ∧
      serverHandleHeader dirNone serverTrans sampleFrameNope = HeaderOutcome.panicked :=
  ⟨rfl, C1_unknown_method_panics dirNone serverTrans sampleFrameNope rfl⟩

/-! ## C2: payload decode errors are swallowed by streamRecv -/

/-- Claim C2 (code bug): when the registered streamIO yields a payload
message and the external codec fails to decode it, streamRecv still returns
nil: the source assigns the DecodePayload error to err and then returns nil,
so the decode error never reaches the caller of recv.  The connection state
is untouched either way (only the streams registry entry advances). -/
theorem C2_decode_error_swallowed (t : Transport) (sid : Int) (sio : SioState)
    (m : Msg) (tl : List Msg) (decode : List Nat → Except Err Unit) (e : Err)
    (h1 : t.loadSio sid = some sio)
    (h2 : sio.exception = none)
    (h3 : sio.pipe.queue = m :: tl)
    (h4 : m.exception = none)
    (h5 : decode m.payload = Except.error e) :
    t.streamRecv sid decode
        = RecvOutcome.ok (t.storeSio sid { sio with pipe := ⟨tl, sio.pipe.closed⟩ }) ∧
      ∀ t2, t.streamRecv sid decode ≠ RecvOutcome.err e t2 := by
  have hmain : t.streamRecv sid decode
      = RecvOutcome.ok (t.storeSio sid { sio with pipe := ⟨tl, sio.pipe.closed⟩ }) := by
    simp [Transport.streamRecv, h1, sioOutput, h2, Pipe.Read, h3, h4]
  refine ⟨hmain, ?_⟩
  intro t2
  rw [hmain]
  exact fun hc => nomatch hc

/-- Witness for C2: sid 5 registered with one undecodable payload. -/
theorem C2_witness :
    recvTrans.loadSio 5 = some sampleSio ∧
      sampleSio.exception = none ∧
      sampleSio.pipe.queue = sampleMsg :: [] ∧
      sampleMsg.exception = none ∧
      decodeFail sampleMsg.payload = Except.error (Err.codec 1) ∧
      recvTrans.streamRecv 5 decodeFail
        = RecvOutcome.ok
            (recvTrans.storeSio 5 { sampleSio with pipe := ⟨[], sampleSio.pipe.closed⟩ }) :=
  ⟨by decide, rfl, rfl, rfl, rfl,
    (C2_decode_error_swallowed recvTrans 5 sampleSio sampleMsg [] decodeFail (Err.codec 1)
      (by decide) rfl rfl rfl rfl).1⟩

/-! ## C3: writeFrame after the write channel is closed -/

/-- Claim C3 counterexample: with the write channel closed, submitting a
frame through writeFrame panics (unguarded Go send on a closed channel); it
does not return the Closed error the claim promises. -/
theorem C3_counterexample :
    closedChanTrans.writeFrame sampleMeta FrameType.data none encId
        = WriteFrameOutcome.panicked ∧
      closedChanTrans.writeFrame sampleMeta FrameType.data none encId
        ≠ WriteFrameOutcome.closedErr := by
  refine ⟨rfl, ?_⟩
  intro h
  exact nomatch h

/-- Claim C3 amended: every frame submitted via writeFrame after the write
channel has been closed makes writeFrame panic on the channel send (for a
frame without payload, and likewise for any payload the external codec
encodes successfully); no Closed error is ever returned. -/
theorem C3_send_on_closed_chan_panics (t : Transport) (meta : StreamFrameMeta)
    (ftype : FrameType) (enc : List Nat → Except Err (List Nat))
    (h : t.wchannel.closed = true) :
    t.writeFrame meta ftype none enc = WriteFrameOutcome.panicked ∧
      ∀ d p, enc d = Except.ok p →
        t.writeFrame meta ftype (some d) enc = WriteFrameOutcome.panicked := by
  constructor
  · simp [Transport.writeFrame, GoChan.send, h]
  · intro d p hd
    simp [Transport.writeFrame, hd, GoChan.send, h]

/-- Witness for C3 at the concrete closed-channel transport. -/
theorem C3_witness :
    closedChanTrans.wchannel.closed = true ∧
      closedChanTrans.writeFrame sampleMeta FrameType.header none encId
        = WriteFrameOutcome.panicked :=
  ⟨rfl, (C3_send_on_closed_chan_panics closedChanTrans sampleMeta FrameType.header encId rfl).1⟩

/-! ## C4: transport Close is not idempotent -/

/-- Claim C4 counterexample: the first Close on a fresh transport succeeds
(accept pipe closed, write channel closed, connection closed), but a second
Close on the resulting state panics, because close(t.wchannel) is a Go
channel close and closing a closed channel panics.  Close is therefore not
idempotent as the claim states. -/
theorem C4_counterexample :
    serverTrans.Close
        = TransCloseOutcome.ok ⟨2, [], [], ⟨[], true⟩, ⟨[], 32, true⟩, true, none⟩ ∧
      Transport.Close ⟨2, [], [], ⟨[], true⟩, ⟨[], 32, true⟩, true, none⟩
        = TransCloseOutcome.panicked := by
  decide

/-- Claim C4 amended: Close closes the accept pipe, then the write channel,
then the connection, in that order; but it is idempotent in no sense: a
second Close on the state produced by the first one panics on the
already-closed write channel. -/
theorem C4_close_then_close_panics (t : Transport) (h : t.wchannel.closed = false) :
    t.Close = TransCloseOutcome.ok
        { t with spipe := t.spipe.Close,
                 wchannel := { t.wchannel with closed := true },
                 connClosed := true } ∧
      Transport.Close
          { t with spipe := t.spipe.Close,
                   wchannel := { t.wchannel with closed := true },
                   connClosed := true }
        = TransCloseOutcome.panicked := by
  constructor
  · simp [Transport.Close, GoChan.closeChan, h]
  · simp [Transport.Close, GoChan.closeChan]

/-- Witness for C4 at the fresh client transport. -/
theorem C4_witness :
    clientTrans.wchannel.closed = false ∧
      clientTrans.Close = TransCloseOutcome.ok
        { clientTrans with spipe := clientTrans.spipe.Close,
                           wchannel := { clientTrans.wchannel with closed := true },
                           connClosed := true } :=
  ⟨rfl, (C4_close_then_close_panics clientTrans rfl).1⟩

/-! ## C5: stream id overflow wraps instead of failing -/

/-- Claim C5 counterexample: with the process-wide counter at the int32
maximum 2147483647, newStream does not fail with StreamIdExhausted: the
atomic increment wraps to -2147483648 and newStream succeeds, returning a
stream with that non-positive sid (and enqueuing its Header frame). -/
theorem C5_counterexample :
    clientTrans.newStream 2147483647 dirUnary methodM []
        = NewStreamOutcome.ok ⟨-2147483648, "m", StreamingMode.unary⟩
            { clientTrans with wchannel :=
                ⟨[⟨⟨-2147483648, "m", [], []⟩, FrameType.header, []⟩], 32, false⟩ }
            (-2147483648) ∧
      (-2147483648 : Int) ≤ 0 ∧
      clientTrans.newStream 2147483647 dirUnary methodM []
        ≠ NewStreamOutcome.err Err.streamIdExhausted := by
  refine ⟨by decide, by decide, ?_⟩
  intro h
  rw [show clientTrans.newStream 2147483647 dirUnary methodM []
      = NewStreamOutcome.ok ⟨-2147483648, "m", StreamingMode.unary⟩
          { clientTrans with wchannel :=
              ⟨[⟨⟨-2147483648, "m", [], []⟩, FrameType.header, []⟩], 32, false⟩ }
          (-2147483648) from by decide] at h
  exact nomatch h

/-- Claim C5 amended: client stream id allocation does use a process-wide,
atomically incremented signed 32-bit counter, but there is no overflow
check: newStream always computes sid as the wrapped increment of the counter
and, whenever the method is known and the write channel accepts the Header
frame, succeeds with that sid — including at overflow, where the sid is
non-positive and no StreamIdExhausted error is produced. -/
theorem C5_newStream_wraps (t : Transport) (counter : Int)
    (dir : String → Option StreamingMode) (method : String)
    (header : List (String × String)) (smode : StreamingMode)
    (h1 : t.kind = clientTransport) (h2 : dir method = some smode)
    (h3 : t.wchannel.closed = false) (h4 : t.wchannel.buf.length < t.wchannel.cap) :
    t.newStream counter dir method header
      = NewStreamOutcome.ok ⟨int32wrap (counter + 1), method, smode⟩
          { t with wchannel :=
              { t.wchannel with buf := t.wchannel.buf
                  ++ [⟨⟨int32wrap (counter + 1), method, header, []⟩, FrameType.header, []⟩] } }
          (int32wrap (counter + 1)) := by
  simp [Transport.newStream, h1, h2, Transport.writeFrame, GoChan.send, h3, h4]

/-- Witness for C5 at counter 7 on the fresh client transport. -/
theorem C5_witness :
    clientTrans.kind = clientTransport ∧
      dirUnary methodM = some StreamingMode.unary ∧
      clientTrans.wchannel.closed = false ∧
      clientTrans.wchannel.buf.length < clientTrans.wchannel.cap ∧
      clientTrans.newStream 7 dirUnary methodM []
        = NewStreamOutcome.ok ⟨int32wrap 8, "m", StreamingMode.unary⟩
            { clientTrans with wchannel :=
                { clientTrans.wchannel with buf := clientTrans.wchannel.buf
                    ++ [⟨⟨int32wrap 8, "m", [], []⟩, FrameType.header, []⟩] } }
            (int32wrap 8) :=
  ⟨rfl, rfl, rfl, by decide,
    C5_newStream_wraps clientTrans 7 dirUnary methodM [] StreamingMode.unary rfl rfl rfl (by decide)⟩

/-! ## C8: the close callback fires at most once -/

theorem cb_op_preserve (s : CbState) (op : CloseOp)
    (h1 : s.cbCount ≤ 1) (h2 : s.callbackFlag = false → s.cbCount = 0) :
    (s.execOp op).cbCount ≤ 1 ∧
      ((s.execOp op).callbackFlag = false → (s.execOp op).cbCount = 0) := by
  have hrun : ∀ u : CbState, u.cbCount ≤ 1 → (u.callbackFlag = false → u.cbCount = 0) →
      u.runCloseCallback.cbCount ≤ 1 ∧
        (u.runCloseCallback.callbackFlag = false → u.runCloseCallback.cbCount = 0) := by
    intro u hu1 hu2
    unfold CbState.runCloseCallback
    split_ifs with hcond
    · have hflag : u.callbackFlag = false := by
        have := (Bool.and_eq_true _ _).mp hcond
        simpa using this.2
      have : u.cbCount = 0 := hu2 hflag
      simp [this]
    · exact ⟨hu1, hu2⟩
  have hsend : ∀ u : CbState, u.cbCount ≤ 1 → (u.callbackFlag = false → u.cbCount = 0) →
      u.closeSend.cbCount ≤ 1 ∧
        (u.closeSend.callbackFlag = false → u.closeSend.cbCount = 0) := by
    intro u hu1 hu2
    unfold CbState.closeSend
    split_ifs with ha he
    · exact hrun _ hu1 hu2
    · exact ⟨hu1, hu2⟩
    · exact ⟨hu1, hu2⟩
  cases op with
  | closeSend => exact hsend s h1 h2
  | closeRecv => exact hsend { s with pipeClosed := true } h1 h2
  | close => exact hrun { s with pipeClosed := true } h1 h2
  | cancel => exact hrun { s with pipeCancelled := true } h1 h2

theorem cb_ops_inv (ops : List CloseOp) :
    ∀ s : CbState, s.cbCount ≤ 1 → (s.callbackFlag = false → s.cbCount = 0) →
      (s.execOps ops).cbCount ≤ 1 := by
  induction ops with
  | nil => intro s h1 _; exact h1
  | cons op rest ih =>
      intro s h1 h2
      have h := cb_op_preserve s op h1 h2
      have : s.execOps (op :: rest) = (s.execOp op).execOps rest := by
        simp [CbState.execOps, List.foldl]
      rw [this]
      exact ih _ h.1 h.2

/-- Claim C8: for every streamIO, across every sequence of the close paths
closeSend, closeRecv, close and cancel, in any order and with any
multiplicity, the registered close callback is invoked at most once: the
ghost invocation counter after executing the whole sequence from the fresh
state never exceeds one.  Every update the source performs on the two
accounting atomics is a single instruction and the invocation itself is
guarded only by the callbackFlag compare-and-swap, so concurrent
interleavings of these paths act on the accounting state as such a
sequence. -/
theorem C8_close_callback_at_most_once (hasCb : Bool) (ops : List CloseOp) :
    ((CbState.init hasCb).execOps ops).cbCount ≤ 1 :=
  cb_ops_inv ops (CbState.init hasCb) (by simp [CbState.init]) (by simp [CbState.init])

/-! ## C9: Available is the strict ten-minute idle test -/

/-- Claim C9: Available returns true exactly when the elapsed time since the
stored lastActive instant is strictly below the ten minute idle threshold,
where a transport with no recorded activity (lastActive never stored) is
always available — the right hand side holds vacuously then. -/
theorem C9_available_iff (t : Transport) (now : Int) :
    t.Available now = true ↔
      ∀ lastActive, t.lastActive = some lastActive → now - lastActive < idleThreshold := by
  cases h : t.lastActive with
  | none => simp [Transport.Available, h]
  | some la => simp [Transport.Available, h]

/-! ## C10: readStream drains in batch and returns in reverse order -/

theorem readStream_cache_drain (base : Transport) (h : base.kind = serverTransport) :
    ∀ c : List Stream,
      Transport.readStreamN c.length { base with scache := c }
        = some (c.reverse, { base with scache := [] }) := by
  intro c
  induction c using List.reverseRecOn with
  | nil => simp [Transport.readStreamN]
  | append_singleton cs x ih =>
      rw [show (cs ++ [x]).length = cs.length + 1 by simp]
      have hread : Transport.readStream { base with scache := cs ++ [x] }
          = ReadStreamOutcome.ok x { base with scache := cs } := by
        simp [Transport.readStream, h]
      simp only [Transport.readStreamN, hread, ih, List.reverse_append, List.reverse_cons,
        List.reverse_nil, List.nil_append, List.singleton_append]

/-- Claim C10: with k inbound streams (2 ≤ k ≤ 32) already enqueued on the
accept pipe and an empty local cache, the first readStream call drains all k
of them into the cache in one batched pipe read, and the k successive
readStream calls return them in reverse arrival order (most recently
accepted first), leaving the cache empty and the accept pipe drained. -/
theorem C10_readStream_reverse_order (t : Transport) (k : Nat)
    (hkind : t.kind = serverTransport) (hc : t.scache = [])
    (hlen : t.spipe.queue.length = k) (hk2 : 2 ≤ k) (hk32 : k ≤ streamCacheSize) :
    Transport.readStreamN k t
      = some (t.spipe.queue.reverse,
          { t with scache := [], spipe := ⟨[], t.spipe.closed⟩ }) := by
  rcases t.spipe.queue.eq_nil_or_concat' with hq | ⟨qs, x, hq⟩
  · rw [hq] at hlen
    simp at hlen
    omega
  · have hkeq : k = qs.length + 1 := by
      rw [hq] at hlen
      simpa using hlen.symm
    subst hkeq
    have hqne : t.spipe.queue ≠ [] := by rw [hq]; simp
    have h32 : streamCacheSize ≠ 0 := by decide
    have hlen32 : t.spipe.queue.length ≤ streamCacheSize := by
      rw [hq]; simpa using hk32
    have htake : t.spipe.queue.take streamCacheSize = t.spipe.queue :=
      List.take_of_length_le hlen32
    have hdrop : t.spipe.queue.drop streamCacheSize = [] :=
      List.drop_eq_nil_of_le hlen32
    have hRead := Pipe.Read_nonempty t.spipe streamCacheSize hqne h32
    rw [htake, hdrop] at hRead
    have hread1 : t.readStream
        = ReadStreamOutcome.ok x
            { t with scache := qs, spipe := ⟨[], t.spipe.closed⟩ } := by
      simp [Transport.readStream, hkind, hc, hRead, hq]
    have hdrain := readStream_cache_drain { t with spipe := ⟨[], t.spipe.closed⟩ }
      (by simpa using hkind) qs
    simp only [Transport.readStreamN, hread1, hdrain, hq, List.reverse_append,
      List.reverse_cons, List.reverse_nil, List.nil_append, List.singleton_append]

/-- Witness for C10: three streams A, B, C enqueued in that order come back
as C, B, A. -/
theorem C10_witness :
    acceptTrans.kind = serverTransport ∧
      acceptTrans.scache = [] ∧
      acceptTrans.spipe.queue.length = 3 ∧
      2 ≤ 3 ∧ 3 ≤ streamCacheSize ∧
      Transport.readStreamN 3 acceptTrans
        = some ([sampleStreamC, sampleStreamB, sampleStreamA],
            { acceptTrans with scache := [], spipe := ⟨[], acceptTrans.spipe.closed⟩ }) :=
  ⟨rfl, rfl, rfl, by decide, by decide,
    C10_readStream_reverse_order acceptTrans 3 rfl rfl rfl (by decide) (by decide)⟩

end TTStream
